import Mathlib

/-!
Shallow embedding of the risk-scoring engine of app/core/fraud_engine.py
(class FraudDetectionEngine) together with the scoring-relevant part of
app/core/config.py.  Python floats are modelled by the rationals; a Python
expression that can raise is modelled as a value in Except String.  The two
fitted scikit-learn models and the fitted StandardScaler are opaque fitted
state of the engine instance, so they are modelled as abstract functions
carried by the Engine structure; np.log1p is likewise carried as an
abstract real-valued primitive.  Everything below is translated line by
line from the source.
-/

set_option autoImplicit false

/-- Hour-of-day and day-of-week of a Python datetime value, the only two
components the engine ever reads (timestamp.hour, timestamp.weekday()). -/
structure PyDatetime where
  hour : Fin 24
  weekday : Fin 7

/-- The value found under the timestamp key of the transaction dict: either
an actual datetime object, or a string on which the source calls
datetime.fromisoformat after replacing Z with +00:00; an unparseable string
makes that call raise, hence the Except. -/
inductive TimestampVal where
  | dt (t : PyDatetime)
  | str (fromiso : Except String PyDatetime)

/-- The transaction_data dict consumed by analyze_transaction.  A missing
key is none.  Keys fed to float() carry the outcome of that coercion: ok q
when the stored value coerces to the float q, error m when float() raises
with message m. -/
structure TransactionData where
  transaction_id : Option String := none
  amount : Option (Except String ℚ) := none
  timestamp : Option TimestampVal := none
  channel : Option String := none
  location_country : Option String := none
  transaction_type : Option String := none
  merchant_category : Option String := none
  account_balance : Option (Except String ℚ) := none
  fraud_indicators : Option String := none
  is_new_merchant : Option Bool := none

/-- A risk rule dict as built by load_risk_rules. -/
structure RiskRule where
  name : String
  type : String
  threshold : ℚ
  weight : ℚ
  description : String

/-- The analysis dict returned by analyze_transaction.  Keys present only
in the success branch (triggered_rules, ml_score, rule_score,
analysis_timestamp) or only in the except branch (error) are Options. -/
structure AnalysisResult where
  transaction_id : Option String
  risk_score : ℚ
  risk_level : String
  is_flagged : Bool
  fraud_indicators : List String
  triggered_rules : Option (List String)
  ml_score : Option ℚ
  rule_score : Option ℚ
  analysis_timestamp : Option String
  error : Option String

/-- An engine instance: the fitted StandardScaler, the two fitted models
and the active rule list, plus the ambient numeric primitive np.log1p.
scalerTransform models scalers[transaction].transform on the single
feature row; anomalyDecision models models[anomaly].decision_function;
predictProba models models[classifier].predict_proba returning the
probability of the fraud class.  Each may raise, hence Except. -/
structure Engine where
  scalerTransform : List ℚ → Except String (List ℚ)
  anomalyDecision : List ℚ → Except String ℚ
  predictProba : List ℚ → Except String ℚ
  risk_rules : List RiskRule
  log1p : ℚ → ℚ

namespace Settings

/-- Settings.FRAUD_THRESHOLD from app/core/config.py, default 0.7; the only
field of the Settings object the scoring path reads. -/
def FRAUD_THRESHOLD : ℚ := 0.7

end Settings

/-- Models float(d.get(key, dflt)): a missing key yields the default
(already a float in the source), a present key yields the outcome of the
float() coercion stored in the dict model. -/
def pyFloat (v : Option (Except String ℚ)) (dflt : ℚ) : Except String ℚ :=
  match v with
  | none => .ok dflt
  | some r => r

/-- Models the timestamp handling shared by _extract_features and
_apply_risk_rules: d.get(timestamp, datetime.now()) followed by
fromisoformat when the value is a string. -/
def getTimestamp (td : TransactionData) (now : PyDatetime) : Except String PyDatetime :=
  match td.timestamp with
  | none => .ok now
  | some (TimestampVal.dt t) => .ok t
  | some (TimestampVal.str p) => p

/-- Python round-half-to-even of a rational to the nearest integer, the tie
rule of round(). -/
def roundHalfEven (q : ℚ) : ℤ :=
  if q - ⌊q⌋ = 1 / 2 then (if 2 ∣ ⌊q⌋ then ⌊q⌋ else ⌊q⌋ + 1) else round q

/-- Python round(q, 2). -/
def pyRound2 (q : ℚ) : ℚ := (roundHalfEven (q * 100) : ℚ) / 100

/-- Whether the first character list starts with the second one. -/
def charsLead : List Char → List Char → Bool
  | [], _ => true
  | _ :: _, [] => false
  | a :: as, b :: bs => (a == b) && charsLead as bs

/-- Whether the needle occurs as a contiguous run inside the haystack. -/
def charsWithin (needle : List Char) : List Char → Bool
  | [] => needle.isEmpty
  | b :: bs => charsLead needle (b :: bs) || charsWithin needle bs

/-- Models the Python substring test: needle in hay. -/
def strContains (hay needle : String) : Bool :=
  charsLead needle.toList hay.toList || charsWithin needle.toList hay.toList

/-- Evaluates to true exactly on the ok constructor. -/
def exOk {α : Type} : Except String α → Bool
  | .ok _ => true
  | .error _ => false

namespace FraudDetectionEngine

/-- The five-rule list built by load_risk_rules, third element; named so
that the time-window theorem can speak about the exact rule the engine
iterates over. -/
def unusual_time_rule : RiskRule :=
  { name := "unusual_time", type := "time", threshold := 1.0, weight := 1.5,
    description := "Transactions outside normal hours (22:00-06:00)" }

/-- load_risk_rules: the rule list installed at engine construction. -/
def load_risk_rules : List RiskRule :=
  [ { name := "high_amount_threshold", type := "amount", threshold := 5000.0,
      weight := 3.0, description := "Transactions above 5,000 euro" },
    { name := "foreign_transaction", type := "location", threshold := 1.0,
      weight := 2.0, description := "Transactions outside Ireland" },
    unusual_time_rule,
    { name := "velocity_check", type := "velocity", threshold := 3.0,
      weight := 2.5, description := "More than 3 transactions in 10 minutes" },
    { name := "new_merchant", type := "pattern", threshold := 1.0,
      weight := 1.0, description := "First transaction with merchant" } ]

/-- channel_map of _extract_features. -/
def channel_map : List (String × ℚ) :=
  [("online", 1), ("atm", 2), ("pos", 3), ("mobile", 4)]

/-- type_map of _extract_features. -/
def type_map : List (String × ℚ) :=
  [("debit", 1), ("credit", 2), ("transfer", 3)]

/-- eu_countries of _extract_features. -/
def eu_countries : List String :=
  ["IE", "GB", "FR", "DE", "ES", "IT", "NL", "BE", "AT", "PT"]

/-- high_risk_categories of _extract_features. -/
def high_risk_categories : List String :=
  ["gambling", "crypto", "cash_advance", "money_transfer"]

/-- _extract_features: builds the single 8-entry feature row.  The three
float()/fromisoformat coercions are the only sub-expressions that can
raise, in source order amount, timestamp, account_balance. -/
def _extract_features (log1p : ℚ → ℚ) (td : TransactionData) (now : PyDatetime) :
    Except String (List ℚ) :=
  match pyFloat td.amount 0 with
  | .error m => .error m
  | .ok amount =>
    match getTimestamp td now with
    | .error m => .error m
    | .ok ts =>
      match pyFloat td.account_balance 10000 with
      | .error m => .error m
      | .ok account_balance =>
        let channel := td.channel.getD "pos"
        let country := td.location_country.getD "IE"
        let country_risk : ℚ :=
          if country = "IE" then 0 else if country ∈ eu_countries then 1 else 2
        let ttype := td.transaction_type.getD "debit"
        let category := td.merchant_category.getD "other"
        .ok [ log1p amount,
              (ts.hour.val : ℚ),
              (ts.weekday.val : ℚ),
              (channel_map.lookup channel).getD 3,
              country_risk,
              (type_map.lookup ttype).getD 1,
              if category ∈ high_risk_categories then 2 else 1,
              min (amount / max account_balance 1) 2 ]

/-- The per-rule predicate of the loop body of _apply_risk_rules, given the
already coerced amount and timestamp. -/
def ruleTriggered (td : TransactionData) (amount : ℚ) (ts : PyDatetime)
    (rule : RiskRule) : Bool :=
  if rule.type = "amount" then decide (rule.threshold ≤ amount)
  else if rule.type = "location" then decide (td.location_country.getD "IE" ≠ "IE")
  else if rule.type = "time" then decide (22 ≤ ts.hour.val) || decide (ts.hour.val ≤ 6)
  else if rule.type = "velocity" then strContains (td.fraud_indicators.getD "") "rapid"
  else if rule.type = "pattern" then td.is_new_merchant.getD false
  else false

/-- One iteration of the rule loop: add the weight and append the name when
the rule triggers. -/
def ruleStep (td : TransactionData) (amount : ℚ) (ts : PyDatetime)
    (acc : ℚ × List String) (rule : RiskRule) : ℚ × List String :=
  if ruleTriggered td amount ts rule then (acc.1 + rule.weight, acc.2 ++ [rule.name])
  else acc

/-- _apply_risk_rules: coerce amount and timestamp, run the rule loop, then
normalize the total with min(total_score, 10.0). -/
def _apply_risk_rules (rules : List RiskRule) (td : TransactionData)
    (now : PyDatetime) : Except String (ℚ × List String) :=
  match pyFloat td.amount 0 with
  | .error m => .error m
  | .ok amount =>
    match getTimestamp td now with
    | .error m => .error m
    | .ok ts =>
      let acc := rules.foldl (ruleStep td amount ts) (0, [])
      .ok (min acc.1 10, acc.2)

/-- The try-block of _apply_ml_models: scale the row, read the anomaly
decision value, normalize it with max(0, min(10, (0.5 - d) * 5)), read the
fraud probability, scale it by 10, and average the two. -/
def mlBody (e : Engine) (features : List ℚ) : Except String ℚ :=
  match e.scalerTransform features with
  | .error m => .error m
  | .ok features_scaled =>
    match e.anomalyDecision features_scaled with
    | .error m => .error m
    | .ok anomaly_score =>
      let anomaly_score_normalized := max 0 (min 10 ((0.5 - anomaly_score) * 5))
      match e.predictProba features_scaled with
      | .error m => .error m
      | .ok fraud_probability =>
        let classification_score := fraud_probability * 10
        .ok ((anomaly_score_normalized + classification_score) / 2)

/-- _apply_ml_models: the except branch converts any failure of the body
into the neutral score 0.0. -/
def _apply_ml_models (e : Engine) (features : List ℚ) : ℚ :=
  match mlBody e features with
  | .ok s => s
  | .error _ => 0

/-- _combine_scores: weighted 60/40 combination capped at 10. -/
def _combine_scores (rule_score : ℚ) (ml_score : ℚ) : ℚ :=
  min (rule_score * 0.6 + ml_score * 0.4) 10.0

/-- _determine_risk_level. -/
def _determine_risk_level (score : ℚ) : String :=
  if score ≥ 8.0 then "critical"
  else if score ≥ 6.0 then "high"
  else if score ≥ 4.0 then "medium"
  else "low"

/-- rule_descriptions of _generate_fraud_indicators. -/
def rule_descriptions : List (String × String) :=
  [ ("high_amount_threshold", "Unusually high transaction amount"),
    ("foreign_transaction", "Transaction outside Ireland"),
    ("unusual_time", "Transaction at unusual time"),
    ("velocity_check", "Multiple rapid transactions"),
    ("new_merchant", "First transaction with this merchant") ]

/-- The indicator list of _generate_fraud_indicators in the order the
source appends: rule phrases first (unknown rule names skipped), then the
three feature-driven phrases.  The source guard len(features) > 0 counts
the rows of the (1, 8) array and is therefore always true; the list here
is the single row. -/
def _generate_fraud_indicators_pre (triggered_rules : List String)
    (features : List ℚ) : List String :=
  (triggered_rules.filterMap (fun r => rule_descriptions.lookup r))
    ++ (if 8 < features.getD 0 0 then ["Amount significantly above normal pattern"] else [])
    ++ (if features.getD 4 0 = 2 then ["Transaction from high-risk country"] else [])
    ++ (if features.getD 6 0 = 2 then ["High-risk merchant category"] else [])

/-- First-occurrence de-duplication, realized as a left fold that keeps an
element only when it has not been seen yet. -/
def insertionDedup (l : List String) : List String :=
  l.foldl (fun acc x => if x ∈ acc then acc else acc ++ [x]) []

/-- Modelled from the spec: the final step of _generate_fraud_indicators is
list(set(indicators)); the source language leaves the iteration order of
that hash set unspecified (and string hashing is randomized per process),
so the order of the returned list is not derivable from the source text.
Membership and de-duplication follow the source; the order modelled here is
the first-occurrence insertion order that section 4.5 of the specification
prescribes. -/
def _generate_fraud_indicators (triggered_rules : List String)
    (features : List ℚ) : List String :=
  insertionDedup (_generate_fraud_indicators_pre triggered_rules features)

/-- The try-block of analyze_transaction: the full pipeline up to the
success dict. -/
def analyzeBody (e : Engine) (td : TransactionData) (now : PyDatetime)
    (nowIso : String) : Except String AnalysisResult :=
  match _extract_features e.log1p td now with
  | .error m => .error m
  | .ok features =>
    match _apply_risk_rules e.risk_rules td now with
    | .error m => .error m
    | .ok (rule_score, triggered_rules) =>
      let ml_score := _apply_ml_models e features
      let final_score := _combine_scores rule_score ml_score
      let risk_level := _determine_risk_level final_score
      let fraud_indicators := _generate_fraud_indicators triggered_rules features
      .ok { transaction_id := td.transaction_id,
            risk_score := pyRound2 final_score,
            risk_level := risk_level,
            is_flagged := decide (Settings.FRAUD_THRESHOLD ≤ final_score),
            fraud_indicators := fraud_indicators,
            triggered_rules := some triggered_rules,
            ml_score := some (pyRound2 ml_score),
            rule_score := some (pyRound2 rule_score),
            analysis_timestamp := some nowIso,
            error := none }

/-- analyze_transaction: the except branch converts any pipeline failure
into the degraded unknown-risk dict.  Totality of this definition is the
embedding of the fact that the caller never sees an exception. -/
def analyze_transaction (e : Engine) (td : TransactionData) (now : PyDatetime)
    (nowIso : String) : AnalysisResult :=
  match analyzeBody e td now nowIso with
  | .ok r => r
  | .error m =>
      { transaction_id := td.transaction_id,
        risk_score := 0.0,
        risk_level := "unknown",
        is_flagged := false,
        fraud_indicators := [],
        triggered_rules := none,
        ml_score := none,
        rule_score := none,
        analysis_timestamp := none,
        error := some m }

end FraudDetectionEngine

open FraudDetectionEngine

/-! Concrete values used by the witnesses below. -/

/-- A transaction dict with every key absent. -/
def td0 : TransactionData := {}

/-- An afternoon datetime, hour 14, Wednesday. -/
def dt14 : PyDatetime := ⟨⟨14, by norm_num⟩, ⟨2, by norm_num⟩⟩

/-- Hour 23. -/
def dt23 : PyDatetime := ⟨⟨23, by norm_num⟩, ⟨2, by norm_num⟩⟩

/-- Hour 6. -/
def dt6 : PyDatetime := ⟨⟨6, by norm_num⟩, ⟨2, by norm_num⟩⟩

/-- Hour 7. -/
def dt7 : PyDatetime := ⟨⟨7, by norm_num⟩, ⟨2, by norm_num⟩⟩

/-- A concrete engine: identity scaler, constant anomaly decision value 0.5,
constant fraud probability 0.348, the shipped rule list, identity in place
of log1p. -/
def engineW : Engine :=
  { scalerTransform := fun xs => .ok xs,
    anomalyDecision := fun _ => .ok 0.5,
    predictProba := fun _ => .ok 0.348,
    risk_rules := load_risk_rules,
    log1p := fun q => q }

/-- A transaction dict whose amount key holds a value float() cannot
coerce. -/
def tdBad : TransactionData :=
  { amount := some (.error "could not convert string to float: abc") }

/-- The quiet feature row: what _extract_features produces from the empty
transaction dict at hour 14 under an identity log1p. -/
def fsQuiet : List ℚ := [0, 14, 2, 3, 0, 1, 1, 0]

/-- A feature row whose country-risk entry (position 4) is 2. -/
def fsRisky : List ℚ := [0, 14, 2, 3, 2, 1, 1, 0]

/-- A transaction that triggers the amount, location, time and pattern
rules: 6000 euro, from France, at hour 23, first merchant contact. -/
def tdTrig : TransactionData :=
  { amount := some (.ok 6000),
    timestamp := some (TimestampVal.dt dt23),
    location_country := some "FR",
    is_new_merchant := some true }

/-- An engine whose classifier raises at scoring time. -/
def engineErr : Engine :=
  { scalerTransform := fun xs => .ok xs,
    anomalyDecision := fun _ => .ok 0.5,
    predictProba := fun _ => .error "predict_proba failed",
    risk_rules := load_risk_rules,
    log1p := fun q => q }

/-- True when the amount key is absent or holds a float()-coercible
value. -/
def amountOk (td : TransactionData) : Bool :=
  match td.amount with
  | none => true
  | some (.ok _) => true
  | some (.error _) => false

/-- True when the account_balance key is absent or holds a
float()-coercible value. -/
def balanceOk (td : TransactionData) : Bool :=
  match td.account_balance with
  | none => true
  | some (.ok _) => true
  | some (.error _) => false

/-- True when the timestamp key is absent, holds a datetime, or holds a
string fromisoformat can parse. -/
def timestampOk (td : TransactionData) : Bool :=
  match td.timestamp with
  | none => true
  | some (TimestampVal.dt _) => true
  | some (TimestampVal.str (.ok _)) => true
  | some (TimestampVal.str (.error _)) => false

/-! Helper lemmas. -/

/-- The tier function never returns the string unknown. -/
theorem determine_ne_unknown (s : ℚ) : _determine_risk_level s ≠ "unknown" := by
  unfold _determine_risk_level
  split_ifs <;> decide

/-- Closed form of the rule loop: the total is the starting total plus the
weights of the triggered rules, the name list is the starting list followed
by the triggered names in iteration order. -/
theorem foldl_ruleStep (td : TransactionData) (a : ℚ) (ts : PyDatetime)
    (rules : List RiskRule) :
    ∀ (t : ℚ) (ns : List String),
      rules.foldl (ruleStep td a ts) (t, ns) =
        (t + ((rules.filter (ruleTriggered td a ts)).map RiskRule.weight).sum,
         ns ++ (rules.filter (ruleTriggered td a ts)).map RiskRule.name) := by
  induction rules with
  | nil => intro t ns; simp
  | cons r rs ih =>
      intro t ns
      cases h : ruleTriggered td a ts r with
      | true =>
          simp [List.foldl_cons, ruleStep, h, ih, List.filter_cons, add_assoc]
      | false =>
          simp [List.foldl_cons, ruleStep, h, ih, List.filter_cons]

/-- Closed form of _apply_risk_rules when the amount and timestamp
coercions succeed. -/
theorem apply_risk_rules_eq (rules : List RiskRule) (td : TransactionData)
    (now : PyDatetime) (a : ℚ) (ts : PyDatetime)
    (ha : pyFloat td.amount 0 = .ok a) (hts : getTimestamp td now = .ok ts) :
    _apply_risk_rules rules td now =
      .ok (min (((rules.filter (ruleTriggered td a ts)).map RiskRule.weight).sum) 10,
           (rules.filter (ruleTriggered td a ts)).map RiskRule.name) := by
  unfold _apply_risk_rules
  rw [ha, hts]
  simp [foldl_ruleStep]

/-- Inversion of a successful _apply_risk_rules call. -/
theorem apply_rules_inv (rules : List RiskRule) (td : TransactionData)
    (now : PyDatetime) (rs : ℚ) (tr : List String)
    (h : _apply_risk_rules rules td now = .ok (rs, tr)) :
    ∃ a ts, pyFloat td.amount 0 = .ok a ∧ getTimestamp td now = .ok ts ∧
      rs = min (((rules.filter (ruleTriggered td a ts)).map RiskRule.weight).sum) 10 ∧
      tr = (rules.filter (ruleTriggered td a ts)).map RiskRule.name := by
  cases ha : pyFloat td.amount 0 with
  | error m => unfold _apply_risk_rules at h; rw [ha] at h; simp at h
  | ok a =>
      cases hts : getTimestamp td now with
      | error m => unfold _apply_risk_rules at h; rw [ha, hts] at h; simp at h
      | ok ts =>
          rw [apply_risk_rules_eq rules td now a ts ha hts] at h
          simp only [Except.ok.injEq, Prod.mk.injEq] at h
          exact ⟨a, ts, rfl, rfl, h.1.symm, h.2.symm⟩

/-- Inversion of a successful run of the ml try-block. -/
theorem mlBody_inv (e : Engine) (fs : List ℚ) (s : ℚ) (h : mlBody e fs = .ok s) :
    ∃ scaled d p, e.predictProba scaled = .ok p ∧
      s = (max 0 (min 10 ((0.5 - d) * 5)) + p * 10) / 2 := by
  cases h1 : e.scalerTransform fs with
  | error m => simp [mlBody, h1] at h
  | ok scaled =>
      cases h2 : e.anomalyDecision scaled with
      | error m => simp [mlBody, h1, h2] at h
      | ok d =>
          cases h3 : e.predictProba scaled with
          | error m => simp [mlBody, h1, h2, h3] at h
          | ok p =>
              simp only [mlBody, h1, h2, h3, Except.ok.injEq] at h
              exact ⟨scaled, d, p, h3, h.symm⟩

/-- Closed form of the analyze pipeline when extraction and rule evaluation
succeed. -/
theorem analyzeBody_ok (e : Engine) (td : TransactionData) (now : PyDatetime)
    (nowIso : String) (fs : List ℚ) (rs : ℚ) (tr : List String)
    (hfs : _extract_features e.log1p td now = .ok fs)
    (hrs : _apply_risk_rules e.risk_rules td now = .ok (rs, tr)) :
    analyzeBody e td now nowIso = .ok
      { transaction_id := td.transaction_id,
        risk_score := pyRound2 (_combine_scores rs (_apply_ml_models e fs)),
        risk_level := _determine_risk_level (_combine_scores rs (_apply_ml_models e fs)),
        is_flagged := decide (Settings.FRAUD_THRESHOLD ≤ _combine_scores rs (_apply_ml_models e fs)),
        fraud_indicators := _generate_fraud_indicators tr fs,
        triggered_rules := some tr,
        ml_score := some (pyRound2 (_apply_ml_models e fs)),
        rule_score := some (pyRound2 rs),
        analysis_timestamp := some nowIso,
        error := none } := by
  unfold analyzeBody
  rw [hfs, hrs]

/-- C1: analyze_transaction is a total function (it never raises to the
caller), and whenever any pipeline stage fails with message m the returned
result is the degraded one: score 0.0, tier unknown, not flagged, empty
indicator list, and the error string m embedded. -/
theorem C1_analyze_degraded_on_failure (e : Engine) (td : TransactionData)
    (now : PyDatetime) (nowIso : String) (m : String)
    (h : analyzeBody e td now nowIso = .error m) :
    (analyze_transaction e td now nowIso).risk_score = 0 ∧
    (analyze_transaction e td now nowIso).risk_level = "unknown" ∧
    (analyze_transaction e td now nowIso).is_flagged = false ∧
    (analyze_transaction e td now nowIso).fraud_indicators = [] ∧
    (analyze_transaction e td now nowIso).error = some m ∧
    (analyze_transaction e td now nowIso).transaction_id = td.transaction_id := by
  unfold analyze_transaction
  rw [h]
  exact ⟨by norm_num, rfl, rfl, rfl, rfl, rfl⟩

/-- Witness for C1 at a concrete malformed payload. -/
theorem C1_witness :
    analyzeBody engineW tdBad dt14 "2024-01-01T00:00:00"
        = .error "could not convert string to float: abc" ∧
    ((analyze_transaction engineW tdBad dt14 "2024-01-01T00:00:00").risk_score = 0 ∧
     (analyze_transaction engineW tdBad dt14 "2024-01-01T00:00:00").risk_level = "unknown" ∧
     (analyze_transaction engineW tdBad dt14 "2024-01-01T00:00:00").is_flagged = false ∧
     (analyze_transaction engineW tdBad dt14 "2024-01-01T00:00:00").fraud_indicators = [] ∧
     (analyze_transaction engineW tdBad dt14 "2024-01-01T00:00:00").error
        = some "could not convert string to float: abc" ∧
     (analyze_transaction engineW tdBad dt14 "2024-01-01T00:00:00").transaction_id
        = tdBad.transaction_id) :=
  ⟨rfl, C1_analyze_degraded_on_failure engineW tdBad dt14 "2024-01-01T00:00:00"
      "could not convert string to float: abc" rfl⟩

/-- C4: the fused score is exactly min of the 60/40 weighted sum and 10. -/
theorem C4_fusion_formula (r m : ℚ) :
    _combine_scores r m = min (r * 0.6 + m * 0.4) 10.0 := rfl

/-- C3: the tier classifier realizes exactly the four claimed intervals, so
every score falls in exactly one tier: critical iff the score is at least
8, high iff it is in [6, 8), medium iff in [4, 6), low iff below 4. -/
theorem C3_tier_partition (s : ℚ) :
    (_determine_risk_level s = "critical" ↔ s ≥ 8.0) ∧
    (_determine_risk_level s = "high" ↔ 6.0 ≤ s ∧ s < 8.0) ∧
    (_determine_risk_level s = "medium" ↔ 4.0 ≤ s ∧ s < 6.0) ∧
    (_determine_risk_level s = "low" ↔ s < 4.0) := by
  unfold _determine_risk_level
  split_ifs with h1 h2 h3
  · refine ⟨⟨fun _ => h1, fun _ => rfl⟩,
      ⟨fun h => absurd h (by decide), fun h => False.elim (by linarith [h.2])⟩,
      ⟨fun h => absurd h (by decide), fun h => False.elim (by linarith [h.2])⟩,
      ⟨fun h => absurd h (by decide), fun h => False.elim (by linarith)⟩⟩
  · refine ⟨⟨fun h => absurd h (by decide), fun h => False.elim (by linarith)⟩,
      ⟨fun _ => ⟨h2, by linarith⟩, fun _ => rfl⟩,
      ⟨fun h => absurd h (by decide), fun h => False.elim (by linarith [h.2])⟩,
      ⟨fun h => absurd h (by decide), fun h => False.elim (by linarith)⟩⟩
  · refine ⟨⟨fun h => absurd h (by decide), fun h => False.elim (by linarith)⟩,
      ⟨fun h => absurd h (by decide), fun h => False.elim (by linarith [h.1])⟩,
      ⟨fun _ => ⟨h3, by linarith⟩, fun _ => rfl⟩,
      ⟨fun h => absurd h (by decide), fun h => False.elim (by linarith)⟩⟩
  · refine ⟨⟨fun h => absurd h (by decide), fun h => False.elim (by linarith)⟩,
      ⟨fun h => absurd h (by decide), fun h => False.elim (by linarith [h.1])⟩,
      ⟨fun h => absurd h (by decide), fun h => False.elim (by linarith [h.1])⟩,
      ⟨fun _ => by linarith, fun _ => rfl⟩⟩

/-- C9: the time-category rule of the shipped rule set triggers exactly on
hours that are at least 22 or at most 6 (both boundaries inclusive, the
window wraps midnight); in particular hour 23 and hour 6 trigger it and
hour 7 does not. -/
theorem C9_time_window :
    (∀ (td : TransactionData) (a : ℚ) (ts : PyDatetime),
        ruleTriggered td a ts unusual_time_rule = true ↔
          22 ≤ ts.hour.val ∨ ts.hour.val ≤ 6) ∧
    unusual_time_rule ∈ load_risk_rules ∧
    ruleTriggered td0 0 dt23 unusual_time_rule = true ∧
    ruleTriggered td0 0 dt6 unusual_time_rule = true ∧
    ruleTriggered td0 0 dt7 unusual_time_rule = false := by
  refine ⟨?_, by simp [load_risk_rules], rfl, rfl, rfl⟩
  intro td a ts
  have hred : ruleTriggered td a ts unusual_time_rule =
      (decide (22 ≤ ts.hour.val) || decide (ts.hour.val ≤ 6)) := rfl
  rw [hred]
  simp

/-- _apply_ml_models either hits the except branch and returns 0, or
returns exactly the value its try-block computed. -/
theorem apply_ml_cases (e : Engine) (fs : List ℚ) :
    _apply_ml_models e fs = 0 ∨ mlBody e fs = .ok (_apply_ml_models e fs) := by
  unfold _apply_ml_models
  cases hb : mlBody e fs with
  | error m => left; rfl
  | ok s => right; rfl

/-- Bounds of the fusion step given bounded inputs. -/
theorem combine_scores_bounds (r m : ℚ) (hr0 : 0 ≤ r) (_hr10 : r ≤ 10)
    (hm0 : 0 ≤ m) (_hm10 : m ≤ 10) :
    0 ≤ _combine_scores r m ∧ _combine_scores r m ≤ 10 := by
  unfold _combine_scores
  constructor
  · apply le_min
    · nlinarith
    · norm_num
  · have h := min_le_right (r * 0.6 + m * 0.4) 10.0
    calc min (r * 0.6 + m * 0.4) 10.0 ≤ 10.0 := h
      _ = 10 := by norm_num

/-- C2: with the classifier honoring its probability contract and every
rule weight nonnegative (true of the shipped rule set, see the witness),
the rule score, the statistical score and the fused score all lie in
[0, 10]. -/
theorem C2_score_bounds (e : Engine) (td : TransactionData) (now : PyDatetime)
    (rs : ℚ) (tr : List String) (fs : List ℚ)
    (hw : ∀ r ∈ e.risk_rules, (0:ℚ) ≤ r.weight)
    (hp : ∀ xs p, e.predictProba xs = .ok p → 0 ≤ p ∧ p ≤ 1)
    (hrs : _apply_risk_rules e.risk_rules td now = .ok (rs, tr)) :
    (0 ≤ rs ∧ rs ≤ 10) ∧
    (0 ≤ _apply_ml_models e fs ∧ _apply_ml_models e fs ≤ 10) ∧
    (0 ≤ _combine_scores rs (_apply_ml_models e fs) ∧
     _combine_scores rs (_apply_ml_models e fs) ≤ 10) := by
  obtain ⟨a, ts, ha, hts, hrs_eq, htr⟩ := apply_rules_inv e.risk_rules td now rs tr hrs
  have hsum : (0:ℚ) ≤ ((e.risk_rules.filter (ruleTriggered td a ts)).map RiskRule.weight).sum := by
    apply List.sum_nonneg
    intro x hx
    obtain ⟨r, hr, hrx⟩ := List.mem_map.mp hx
    exact hrx ▸ hw r (List.mem_of_mem_filter hr)
  have hr0 : 0 ≤ rs := by rw [hrs_eq]; exact le_min hsum (by norm_num)
  have hr10 : rs ≤ 10 := by rw [hrs_eq]; exact min_le_right _ _
  have hml : 0 ≤ _apply_ml_models e fs ∧ _apply_ml_models e fs ≤ 10 := by
    rcases apply_ml_cases e fs with h | h
    · rw [h]; norm_num
    · obtain ⟨scaled, d, p, hpp, hs⟩ := mlBody_inv e fs _ h
      obtain ⟨hp0, hp1⟩ := hp scaled p hpp
      have hmax0 : (0:ℚ) ≤ max 0 (min 10 ((0.5 - d) * 5)) := le_max_left _ _
      have hmax10 : max 0 (min 10 ((0.5 - d) * 5)) ≤ 10 :=
        max_le (by norm_num) (min_le_left _ _)
      constructor
      · rw [hs]; linarith
      · rw [hs]; linarith
  exact ⟨⟨hr0, hr10⟩, hml,
    combine_scores_bounds rs (_apply_ml_models e fs) hr0 hr10 hml.1 hml.2⟩

/-- Witness for C2: the shipped rule set has nonnegative weights, the
witness classifier returns probability 0.348, and the empty transaction at
hour 14 evaluates to rule score 0; all three scores are inside [0, 10]. -/
theorem C2_witness :
    ((∀ r ∈ engineW.risk_rules, (0:ℚ) ≤ r.weight) ∧
     (∀ xs p, engineW.predictProba xs = .ok p → 0 ≤ p ∧ p ≤ 1) ∧
     _apply_risk_rules engineW.risk_rules td0 dt14 = .ok (0, [])) ∧
    ((0 ≤ (0:ℚ) ∧ (0:ℚ) ≤ 10) ∧
     (0 ≤ _apply_ml_models engineW fsQuiet ∧ _apply_ml_models engineW fsQuiet ≤ 10) ∧
     (0 ≤ _combine_scores 0 (_apply_ml_models engineW fsQuiet) ∧
      _combine_scores 0 (_apply_ml_models engineW fsQuiet) ≤ 10)) := by
  have hw : ∀ r ∈ engineW.risk_rules, (0:ℚ) ≤ r.weight := by
    intro r hr
    simp only [engineW, load_risk_rules, unusual_time_rule, List.mem_cons,
      List.not_mem_nil, or_false] at hr
    rcases hr with h | h | h | h | h <;> subst h <;> norm_num
  have hp : ∀ xs p, engineW.predictProba xs = .ok p → 0 ≤ p ∧ p ≤ 1 := by
    intro xs p hxp
    simp only [engineW, Except.ok.injEq] at hxp
    rw [← hxp]
    norm_num
  have hrs : _apply_risk_rules engineW.risk_rules td0 dt14 = .ok (0, []) := by
    norm_num [_apply_risk_rules, pyFloat, getTimestamp, td0, dt14, engineW,
      load_risk_rules, unusual_time_rule, ruleStep, ruleTriggered, strContains,
      charsLead, charsWithin, min_def]
  exact ⟨⟨hw, hp, hrs⟩, C2_score_bounds engineW td0 dt14 0 [] fsQuiet hw hp hrs⟩

/-- The empty transaction at hour 14 triggers no rule of the shipped set. -/
theorem quiet_rules_eval :
    _apply_risk_rules load_risk_rules td0 dt14 = .ok (0, []) := by
  norm_num [_apply_risk_rules, pyFloat, getTimestamp, td0, dt14,
    load_risk_rules, unusual_time_rule, ruleStep, ruleTriggered, strContains,
    charsLead, charsWithin, min_def]

/-- Feature extraction on the empty transaction at hour 14, with the
identity standing in for log1p, yields the quiet row. -/
theorem quiet_extract_eval :
    _extract_features (fun q : ℚ => q) td0 dt14 = .ok fsQuiet := by
  norm_num [_extract_features, pyFloat, getTimestamp, td0, dt14, fsQuiet,
    channel_map, type_map, eu_countries, high_risk_categories, List.lookup,
    min_def, max_def]
  decide

/-- Rounding fixes zero. -/
theorem pyRound2_zero : pyRound2 0 = 0 := by
  norm_num [pyRound2, roundHalfEven]

/-- C5: when the per-call float coercions succeed and the rule names are
distinct, the evaluator returns min(sum of triggered weights, 10) together
with the triggered names in rule-set iteration order and without
duplicates. -/
theorem C5_rule_evaluator (rules : List RiskRule) (td : TransactionData)
    (now : PyDatetime) (a : ℚ) (ts : PyDatetime)
    (ha : pyFloat td.amount 0 = .ok a) (hts : getTimestamp td now = .ok ts)
    (hnd : (rules.map RiskRule.name).Nodup) :
    _apply_risk_rules rules td now =
      .ok (min (((rules.filter (ruleTriggered td a ts)).map RiskRule.weight).sum) 10,
           (rules.filter (ruleTriggered td a ts)).map RiskRule.name) ∧
    ((rules.filter (ruleTriggered td a ts)).map RiskRule.name).Nodup := by
  refine ⟨apply_risk_rules_eq rules td now a ts ha hts, ?_⟩
  have hsub : List.Sublist ((rules.filter (ruleTriggered td a ts)).map RiskRule.name)
      (rules.map RiskRule.name) :=
    List.Sublist.map RiskRule.name (List.filter_sublist rules)
  exact List.Nodup.sublist hsub hnd

/-- Witness for C5 at a transaction triggering four of the five shipped
rules. -/
theorem C5_witness :
    (pyFloat tdTrig.amount 0 = .ok 6000 ∧
     getTimestamp tdTrig dt14 = .ok dt23 ∧
     (load_risk_rules.map RiskRule.name).Nodup) ∧
    (_apply_risk_rules load_risk_rules tdTrig dt14 =
      .ok (min (((load_risk_rules.filter (ruleTriggered tdTrig 6000 dt23)).map RiskRule.weight).sum) 10,
           (load_risk_rules.filter (ruleTriggered tdTrig 6000 dt23)).map RiskRule.name) ∧
     ((load_risk_rules.filter (ruleTriggered tdTrig 6000 dt23)).map RiskRule.name).Nodup) :=
  ⟨⟨rfl, rfl, by decide⟩,
   C5_rule_evaluator load_risk_rules tdTrig dt14 6000 dt23 rfl rfl (by decide)⟩

/-- C7: when the statistical try-block fails, the scorer reports the
neutral floor 0, and analyze still produces a normal, non-unknown result
whose score is the rule score alone times the 0.6 fusion weight. -/
theorem C7_ml_failure_rule_only (e : Engine) (td : TransactionData)
    (now : PyDatetime) (nowIso : String) (fs : List ℚ) (rs : ℚ)
    (tr : List String) (m : String)
    (hfs : _extract_features e.log1p td now = .ok fs)
    (hrs : _apply_risk_rules e.risk_rules td now = .ok (rs, tr))
    (hml : mlBody e fs = .error m) :
    _apply_ml_models e fs = 0 ∧
    (analyze_transaction e td now nowIso).error = none ∧
    (analyze_transaction e td now nowIso).risk_level ≠ "unknown" ∧
    (analyze_transaction e td now nowIso).risk_score = pyRound2 (rs * 0.6) ∧
    (analyze_transaction e td now nowIso).ml_score = some 0 := by
  have h0 : _apply_ml_models e fs = 0 := by unfold _apply_ml_models; rw [hml]
  have hb := analyzeBody_ok e td now nowIso fs rs tr hfs hrs
  have hrs10 : rs ≤ 10 := by
    obtain ⟨a, ts, _, _, hrseq, _⟩ := apply_rules_inv e.risk_rules td now rs tr hrs
    rw [hrseq]
    exact min_le_right _ _
  have hcomb : _combine_scores rs 0 = rs * 0.6 := by
    unfold _combine_scores
    have hz : rs * 0.6 + 0 * 0.4 = rs * 0.6 := by ring
    rw [hz]
    exact min_eq_left (by nlinarith)
  unfold analyze_transaction
  rw [hb, h0, hcomb, pyRound2_zero]
  exact ⟨rfl, rfl, determine_ne_unknown _, rfl, rfl⟩

/-- Witness for C7: the classifier of engineErr raises, yet the empty
transaction is scored normally. -/
theorem C7_witness :
    (_extract_features engineErr.log1p td0 dt14 = .ok fsQuiet ∧
     _apply_risk_rules engineErr.risk_rules td0 dt14 = .ok (0, []) ∧
     mlBody engineErr fsQuiet = .error "predict_proba failed") ∧
    (_apply_ml_models engineErr fsQuiet = 0 ∧
     (analyze_transaction engineErr td0 dt14 "2024-01-01T00:00:03").error = none ∧
     (analyze_transaction engineErr td0 dt14 "2024-01-01T00:00:03").risk_level ≠ "unknown" ∧
     (analyze_transaction engineErr td0 dt14 "2024-01-01T00:00:03").risk_score
        = pyRound2 (0 * 0.6) ∧
     (analyze_transaction engineErr td0 dt14 "2024-01-01T00:00:03").ml_score = some 0) :=
  ⟨⟨quiet_extract_eval, quiet_rules_eval, rfl⟩,
   C7_ml_failure_rule_only engineErr td0 dt14 "2024-01-01T00:00:03" fsQuiet 0 []
     "predict_proba failed" quiet_extract_eval quiet_rules_eval rfl⟩

/-- C8 counterexample: a payload whose amount is not coercible makes
extraction fail, and analyze returns the degraded unknown result for it —
the malformed field is not recovered by defaulting. -/
theorem C8_counterexample :
    amountOk tdBad = false ∧
    _extract_features engineW.log1p tdBad dt14
        = .error "could not convert string to float: abc" ∧
    (analyze_transaction engineW tdBad dt14 "2024-01-01T00:00:01").risk_level
        = "unknown" ∧
    (analyze_transaction engineW tdBad dt14 "2024-01-01T00:00:01").error
        = some "could not convert string to float: abc" :=
  ⟨rfl, rfl, rfl, rfl⟩

/-- C8 as amended: missing fields are defaulted and never cause an error;
when every coercion-prone field (amount, timestamp, account_balance) is
absent or coercible, extraction succeeds and analyze returns a normal,
non-unknown result with no embedded error.  (A non-coercible field instead
raises inside extraction and analyze converts that into the degraded
unknown result, per the counterexample.) -/
theorem C8_extraction_defaults (e : Engine) (td : TransactionData)
    (now : PyDatetime) (nowIso : String)
    (h1 : amountOk td = true) (h2 : timestampOk td = true)
    (h3 : balanceOk td = true) :
    exOk (_extract_features e.log1p td now) = true ∧
    (analyze_transaction e td now nowIso).risk_level ≠ "unknown" ∧
    (analyze_transaction e td now nowIso).error = none := by
  obtain ⟨a, ha⟩ : ∃ a, pyFloat td.amount 0 = .ok a := by
    cases hA : td.amount with
    | none => exact ⟨0, by simp [pyFloat, hA]⟩
    | some v =>
        cases v with
        | ok q => exact ⟨q, by simp [pyFloat, hA]⟩
        | error m => simp [amountOk, hA] at h1
  obtain ⟨ts, hts⟩ : ∃ ts, getTimestamp td now = .ok ts := by
    cases hT : td.timestamp with
    | none => exact ⟨now, by simp [getTimestamp, hT]⟩
    | some v =>
        cases v with
        | dt t => exact ⟨t, by simp [getTimestamp, hT]⟩
        | str p =>
            cases p with
            | ok t => exact ⟨t, by simp [getTimestamp, hT]⟩
            | error m => simp [timestampOk, hT] at h2
  obtain ⟨b, hb⟩ : ∃ b, pyFloat td.account_balance 10000 = .ok b := by
    cases hB : td.account_balance with
    | none => exact ⟨10000, by simp [pyFloat, hB]⟩
    | some v =>
        cases v with
        | ok q => exact ⟨q, by simp [pyFloat, hB]⟩
        | error m => simp [balanceOk, hB] at h3
  have hfs : _extract_features e.log1p td now = .ok
      [ e.log1p a, (ts.hour.val : ℚ), (ts.weekday.val : ℚ),
        (channel_map.lookup (td.channel.getD "pos")).getD 3,
        (if td.location_country.getD "IE" = "IE" then 0
         else if td.location_country.getD "IE" ∈ eu_countries then 1 else 2 : ℚ),
        (type_map.lookup (td.transaction_type.getD "debit")).getD 1,
        (if td.merchant_category.getD "other" ∈ high_risk_categories then 2 else 1 : ℚ),
        min (a / max b 1) 2 ] := by
    unfold _extract_features
    rw [ha, hts, hb]
  have hr := apply_risk_rules_eq e.risk_rules td now a ts ha hts
  have hbody := analyzeBody_ok e td now nowIso _ _ _ hfs hr
  refine ⟨by rw [hfs]; rfl, ?_, ?_⟩
  · unfold analyze_transaction
    rw [hbody]
    exact determine_ne_unknown _
  · unfold analyze_transaction
    rw [hbody]

/-- Witness for the amended C8 at the empty payload: every field defaults,
extraction succeeds, the result is not degraded. -/
theorem C8_witness :
    (amountOk td0 = true ∧ timestampOk td0 = true ∧ balanceOk td0 = true) ∧
    (exOk (_extract_features engineW.log1p td0 dt14) = true ∧
     (analyze_transaction engineW td0 dt14 "2024-01-01T00:00:02").risk_level
        ≠ "unknown" ∧
     (analyze_transaction engineW td0 dt14 "2024-01-01T00:00:02").error = none) :=
  ⟨⟨rfl, rfl, rfl⟩,
   C8_extraction_defaults engineW td0 dt14 "2024-01-01T00:00:02" rfl rfl rfl⟩

/-- Any rational in [0.695, 0.7) rounds to 0.7 under round-half-even at two
decimals. -/
theorem pyRound2_near_7over10 (q : ℚ) (hl : 0.695 ≤ q) (hu : q < 0.7) :
    pyRound2 q = 0.7 := by
  have h695 : (69.5 : ℚ) ≤ q * 100 := by nlinarith
  have h70 : q * 100 < 70 := by nlinarith
  have hfl : ⌊q * 100⌋ = 69 := by
    rw [Int.floor_eq_iff]
    constructor
    · push_cast
      linarith
    · push_cast
      linarith
  unfold pyRound2 roundHalfEven
  rw [hfl]
  split_ifs with he h2
  · exfalso
    norm_num at h2
  · norm_num
  · have hgt : (69.5 : ℚ) < q * 100 := by
      rcases lt_or_eq_of_le h695 with h | h
      · exact h
      · exfalso
        apply he
        rw [← h]
        norm_num
    have hr : round (q * 100) = 70 := by
      rw [round_eq, Int.floor_eq_iff]
      constructor
      · push_cast
        linarith
      · push_cast
        linarith
    rw [hr]
    norm_num

/-- C10: the flag is computed from the unrounded fused score while the
reported risk_score is the score rounded to two decimals, so a fused score
in [threshold - 0.005, threshold) reports a risk_score at or above the
0.7 threshold while is_flagged stays false. -/
theorem C10_threshold_gap (e : Engine) (td : TransactionData)
    (now : PyDatetime) (nowIso : String) (fs : List ℚ) (rs : ℚ)
    (tr : List String)
    (hfs : _extract_features e.log1p td now = .ok fs)
    (hrs : _apply_risk_rules e.risk_rules td now = .ok (rs, tr))
    (hl : 0.695 ≤ _combine_scores rs (_apply_ml_models e fs))
    (hu : _combine_scores rs (_apply_ml_models e fs) < 0.7) :
    (analyze_transaction e td now nowIso).risk_score =
        pyRound2 (_combine_scores rs (_apply_ml_models e fs)) ∧
    (analyze_transaction e td now nowIso).is_flagged =
        decide (Settings.FRAUD_THRESHOLD ≤ _combine_scores rs (_apply_ml_models e fs)) ∧
    Settings.FRAUD_THRESHOLD ≤ (analyze_transaction e td now nowIso).risk_score ∧
    (analyze_transaction e td now nowIso).is_flagged = false := by
  have hb := analyzeBody_ok e td now nowIso fs rs tr hfs hrs
  unfold analyze_transaction
  rw [hb]
  refine ⟨rfl, rfl, ?_, ?_⟩
  · show Settings.FRAUD_THRESHOLD ≤ pyRound2 (_combine_scores rs (_apply_ml_models e fs))
    rw [pyRound2_near_7over10 _ hl hu]
    norm_num [Settings.FRAUD_THRESHOLD]
  · show decide (Settings.FRAUD_THRESHOLD ≤ _combine_scores rs (_apply_ml_models e fs)) = false
    rw [decide_eq_false_iff_not]
    rw [show Settings.FRAUD_THRESHOLD = 0.7 from rfl]
    exact not_le.mpr hu

/-- Witness for C10: under the witness engine the empty transaction fuses
to exactly 0.696, which reports risk_score 0.7 but is not flagged. -/
theorem C10_witness :
    (_extract_features engineW.log1p td0 dt14 = .ok fsQuiet ∧
     _apply_risk_rules engineW.risk_rules td0 dt14 = .ok (0, []) ∧
     0.695 ≤ _combine_scores 0 (_apply_ml_models engineW fsQuiet) ∧
     _combine_scores 0 (_apply_ml_models engineW fsQuiet) < 0.7) ∧
    ((analyze_transaction engineW td0 dt14 "2024-01-01T00:00:04").risk_score =
        pyRound2 (_combine_scores 0 (_apply_ml_models engineW fsQuiet)) ∧
     (analyze_transaction engineW td0 dt14 "2024-01-01T00:00:04").is_flagged =
        decide (Settings.FRAUD_THRESHOLD ≤ _combine_scores 0 (_apply_ml_models engineW fsQuiet)) ∧
     Settings.FRAUD_THRESHOLD ≤
        (analyze_transaction engineW td0 dt14 "2024-01-01T00:00:04").risk_score ∧
     (analyze_transaction engineW td0 dt14 "2024-01-01T00:00:04").is_flagged = false) := by
  have hml : _apply_ml_models engineW fsQuiet = 1.74 := by
    norm_num [_apply_ml_models, mlBody, engineW, min_def, max_def]
  have hcomb : _combine_scores 0 (_apply_ml_models engineW fsQuiet) = 0.696 := by
    rw [hml]
    norm_num [_combine_scores, min_def]
  have hl : 0.695 ≤ _combine_scores 0 (_apply_ml_models engineW fsQuiet) := by
    rw [hcomb]
    norm_num
  have hu : _combine_scores 0 (_apply_ml_models engineW fsQuiet) < 0.7 := by
    rw [hcomb]
    norm_num
  exact ⟨⟨quiet_extract_eval, quiet_rules_eval, hl, hu⟩,
    C10_threshold_gap engineW td0 dt14 "2024-01-01T00:00:04" fsQuiet 0 []
      quiet_extract_eval quiet_rules_eval hl hu⟩

/-- The keep-first fold preserves freedom from duplicates. -/
theorem insertionDedup_fold_nodup (l : List String) :
    ∀ acc : List String, acc.Nodup →
      (l.foldl (fun acc x => if x ∈ acc then acc else acc ++ [x]) acc).Nodup := by
  induction l with
  | nil => intro acc h; simpa using h
  | cons x xs ih =>
      intro acc h
      rw [List.foldl_cons]
      by_cases hx : x ∈ acc
      · rw [if_pos hx]
        exact ih acc h
      · rw [if_neg hx]
        apply ih
        rw [List.nodup_append]
        refine ⟨h, List.nodup_singleton x, ?_⟩
        intro a ha hb
        rw [List.mem_singleton] at hb
        subst hb
        exact hx ha

/-- C6: in the model the generated indicator list never holds duplicates
(the source obtains this from the set conversion), and the concrete runs
below show the keep-first order of the raw indicator list; the iteration
order of the source hash set itself is not defined by the source text. -/
theorem C6_indicator_dedup :
    (∀ (tr : List String) (fs : List ℚ), (_generate_fraud_indicators tr fs).Nodup) ∧
    _generate_fraud_indicators ["velocity_check", "velocity_check"] fsQuiet
        = ["Multiple rapid transactions"] ∧
    _generate_fraud_indicators_pre ["foreign_transaction", "high_amount_threshold"] fsRisky
        = ["Transaction outside Ireland", "Unusually high transaction amount",
           "Transaction from high-risk country"] ∧
    _generate_fraud_indicators ["foreign_transaction", "high_amount_threshold"] fsRisky
        = ["Transaction outside Ireland", "Unusually high transaction amount",
           "Transaction from high-risk country"] := by
  refine ⟨?_, by decide, by decide, by decide⟩
  intro tr fs
  exact insertionDedup_fold_nodup _ [] List.nodup_nil
